import Mathlib

/-!
Verification of the KindlePlus backend API core against its specification.

This file gives a shallow embedding, in Lean 4, of the data model and the
operations of the backend under `src/backend_api/src`: the routers for
purchases, wishlist, library, reading progress and categories, the pagination
utilities, and the token-type check of the auth service.  Database tables are
modelled as lists of row records, the SQLAlchemy session as explicit state
passing, and each HTTP handler as a function from the database state (plus the
acting user and the request payload) to `Except ApiError (result × state)`.
Freshly generated UUID primary keys are passed in as explicit arguments.
Python `int` is modelled as `Int`, SQL `FLOAT` columns (on which the code does
no arithmetic, only storage and copying) as `ℚ`, nullable columns as `Option`.
-/

/-- The error taxonomy raised by the handlers (`HTTPException` instances),
identified by their HTTP status code together with the `detail` string. -/
inductive ApiError where
  | notFound (detail : String)
  | conflict (detail : String)
  | unauthorized (detail : String)
  | forbidden (detail : String)
  deriving DecidableEq, Repr

/-- HTTP status code carried by each error kind. -/
def ApiError.statusCode : ApiError → Nat
  | .notFound _ => 404
  | .conflict _ => 409
  | .unauthorized _ => 401
  | .forbidden _ => 403

/-! ## Pagination utilities (`src/utils/pagination.py`) -/

/-- `DEFAULT_PAGE_SIZE` from `src/utils/pagination.py`. -/
def DEFAULT_PAGE_SIZE : Int := 20

/-- `MAX_PAGE_SIZE` from `src/utils/pagination.py`. -/
def MAX_PAGE_SIZE : Int := 100

/-- Embedding of `sanitize_pagination` (`src/utils/pagination.py`, lines
43-51).  `none` stands for Python `None`; the `if v = 0` branches embed the
truthiness of `page or 1` and `page_size or DEFAULT_PAGE_SIZE` (in Python `0`
is falsy).  The function is total, mirroring that the source never raises. -/
def sanitize_pagination (page page_size : Option Int) : Int × Int :=
  let p : Int := max 1 (match page with
    | none => 1
    | some v => if v = 0 then 1 else v)
  let size0 : Int := match page_size with
    | none => DEFAULT_PAGE_SIZE
    | some v => if v = 0 then DEFAULT_PAGE_SIZE else v
  let size1 : Int := if size0 < 1 then DEFAULT_PAGE_SIZE else size0
  let size2 : Int := if size1 > MAX_PAGE_SIZE then MAX_PAGE_SIZE else size1
  (p, size2)

/-- The behaviour of `sanitize_pagination` as the specification words it:
page floored to at least 1 (defaulting to 1 when absent); page size 20 when
absent or non-positive, otherwise clamped to at most 100. -/
def sanitize_pagination_spec (page page_size : Option Int) : Int × Int :=
  (max 1 (page.getD 1),
   match page_size with
   | none => 20
   | some v => if v ≤ 0 then 20 else min v 100)

/-- C7: for all inputs, including absent and non-positive values,
`sanitize_pagination` returns the page floored to at least 1 (1 when absent)
and the page size defaulted to 20 when absent or non-positive and clamped to
at most 100 otherwise; it never raises (it is a total function); in particular
`sanitize_pagination 0 0 = (1, 20)` and `sanitize_pagination 3 500 = (3, 100)`. -/
theorem sanitize_pagination_correct :
    (∀ page page_size : Option Int,
      sanitize_pagination page page_size = sanitize_pagination_spec page page_size) ∧
    sanitize_pagination (some 0) (some 0) = (1, 20) ∧
    sanitize_pagination (some 3) (some 500) = (3, 100) := by
  refine ⟨?_, by decide, by decide⟩
  intro page page_size
  cases page <;> cases page_size <;>
    simp only [sanitize_pagination, sanitize_pagination_spec, DEFAULT_PAGE_SIZE,
      MAX_PAGE_SIZE, Option.getD] <;>
    split_ifs <;> simp_all <;> omega

/-! ## Token type classification (`src/services/auth_service.py`) -/

/-- A decoded JWT payload, reduced to the claims the type check consults.
`typ` models the `"type"` claim (`payload.get("type")`, absent claims as
`none`); `sub` models the subject.  Signature and expiry verification
(`decode_token`) happens before this check and is modelled as having already
succeeded. -/
structure TokenClaims where
  sub : String
  typ : Option String
  deriving DecidableEq, Repr

/-- The payload written by `_create_token` (`auth_service.py`, lines 40-68),
restricted to the modelled claims: the `"type"` claim is the given token type. -/
def createTokenClaims (subject token_type : String) : TokenClaims :=
  { sub := subject, typ := some token_type }

/-- Claims of a token minted by `create_access_token`: type `"access"`. -/
def access_token_claims (subject : String) : TokenClaims :=
  createTokenClaims subject "access"

/-- Claims of a token minted by `create_refresh_token`: type `"refresh"`. -/
def refresh_token_claims (subject : String) : TokenClaims :=
  createTokenClaims subject "refresh"

/-- Embedding of the type-assertion step of `get_token_payload`
(`auth_service.py`, lines 122-127), applied to an already-decoded payload:
if an expected type is given and the decoded `"type"` claim differs,
fail 401 "Invalid token type"; otherwise return the payload. -/
def get_token_payload (payload : TokenClaims) (expected_type : Option String) :
    Except ApiError TokenClaims :=
  match expected_type with
  | none => .ok payload
  | some k =>
    if payload.typ ≠ some k then .error (.unauthorized "Invalid token type")
    else .ok payload

/-- C5: for every decoded token payload and expected kind k in
access/refresh, the type check fails with 401 "Invalid token type" exactly
when the type claim of the payload differs from k and passes otherwise; in
particular every refresh token is rejected by a check expecting "access" and
every access token by a check expecting "refresh". -/
theorem token_type_check_correct :
    (∀ (c : TokenClaims) (k : String), k = "access" ∨ k = "refresh" →
      (c.typ ≠ some k →
        get_token_payload c (some k) = .error (.unauthorized "Invalid token type") ∧
        (ApiError.unauthorized "Invalid token type").statusCode = 401) ∧
      (c.typ = some k → get_token_payload c (some k) = .ok c)) ∧
    (∀ s : String,
      get_token_payload (refresh_token_claims s) (some "access") =
        .error (.unauthorized "Invalid token type") ∧
      get_token_payload (access_token_claims s) (some "refresh") =
        .error (.unauthorized "Invalid token type")) := by
  constructor
  · intro c k _
    constructor
    · intro hne
      exact ⟨by simp [get_token_payload, hne], rfl⟩
    · intro heq
      simp [get_token_payload, heq]
  · intro s
    constructor <;> simp [get_token_payload, refresh_token_claims,
      access_token_claims, createTokenClaims]

/-- Witness for C5 at a concrete refresh token checked for kind "access". -/
theorem token_type_check_correct_witness :
    get_token_payload (TokenClaims.mk "u1" (some "refresh")) (some "access") =
      .error (.unauthorized "Invalid token type") :=
  ((token_type_check_correct.1 (TokenClaims.mk "u1" (some "refresh")) "access"
    (Or.inl rfl)).1 (by decide)).1

/-! ## Data model (`src/models/`)

Each table is a list of row records; `id` columns are UUID string primary
keys, generated by the caller and passed in explicitly.  Timestamps and ORM
relationship attributes play no role in any claim and are omitted. -/

/-- A row of the `wishlists` table (`src/models/wishlist.py`). -/
structure WishlistRow where
  id : String
  user_id : String
  book_id : String
  deriving DecidableEq, Repr

/-- A row of the `purchases` table (`src/models/purchase.py`). -/
structure PurchaseRow where
  id : String
  user_id : String
  book_id : String
  price_cents : Int
  currency : String
  transaction_id : Option String
  status : String
  deriving DecidableEq, Repr

/-- A row of the `libraries` table (`src/models/library.py`). -/
structure LibraryRow where
  id : String
  user_id : String
  book_id : String
  source : String
  deriving DecidableEq, Repr

/-- A row of the `reading_progress` table
(`src/models/reading_progress.py`).  Column defaults (model lines 45-48):
`progress_percent` 0.0, `is_completed` false, chapter and location NULL. -/
structure ReadingProgressRow where
  id : String
  user_id : String
  book_id : String
  progress_percent : ℚ
  current_chapter : Option String
  current_location : Option String
  is_completed : Bool
  deriving DecidableEq, Repr

/-- The database state: the tables the verified workflows touch.  Books are
reduced to their ids, the only attribute any modelled handler reads. -/
structure DB where
  books : List String
  wishlists : List WishlistRow
  purchases : List PurchaseRow
  libraries : List LibraryRow
  progresses : List ReadingProgressRow
  deriving DecidableEq, Repr

/-- The (user_id, book_id) key of a wishlist row. -/
def WishlistRow.pairKey (r : WishlistRow) : String × String := (r.user_id, r.book_id)

/-- The (user_id, book_id) key of a purchase row. -/
def PurchaseRow.pairKey (r : PurchaseRow) : String × String := (r.user_id, r.book_id)

/-- The (user_id, book_id) key of a library row. -/
def LibraryRow.pairKey (r : LibraryRow) : String × String := (r.user_id, r.book_id)

/-- The (user_id, book_id) key of a reading-progress row. -/
def ReadingProgressRow.pairKey (r : ReadingProgressRow) : String × String :=
  (r.user_id, r.book_id)

/-! ## Purchase creation (`src/api/routers/purchases.py`) -/

/-- The `PurchaseCreate` request schema (`src/schemas/purchase.py`); the
`user_id` field of the payload is ignored by the handler and omitted here. -/
structure PurchaseCreate where
  book_id : String
  price_cents : Int
  currency : String
  transaction_id : Option String
  status : String
  deriving DecidableEq, Repr

/-- Embedding of `create_purchase` (`purchases.py`, lines 81-130) for acting
user `uid`: 404 if the book does not exist, 409 "Book already purchased" if a
purchase row for (uid, book) exists, otherwise insert the purchase row and
then insert a library row with source "purchase" unless one already exists
for (uid, book).  `newPurchaseId` and `newLibraryId` are the UUIDs the ORM
would generate for the two inserts. -/
def create_purchase (db : DB) (uid newPurchaseId newLibraryId : String)
    (payload : PurchaseCreate) : Except ApiError (PurchaseRow × DB) :=
  if !db.books.contains payload.book_id then
    .error (.notFound "Book not found")
  else if db.purchases.any (fun r => r.user_id == uid && r.book_id == payload.book_id) then
    .error (.conflict "Book already purchased")
  else
    let purchase : PurchaseRow :=
      { id := newPurchaseId, user_id := uid, book_id := payload.book_id,
        price_cents := payload.price_cents, currency := payload.currency,
        transaction_id := payload.transaction_id, status := payload.status }
    let db1 : DB := { db with purchases := db.purchases ++ [purchase] }
    let db2 : DB :=
      if db1.libraries.any (fun r => r.user_id == uid && r.book_id == payload.book_id) then
        db1
      else
        { db1 with libraries := db1.libraries ++
          [{ id := newLibraryId, user_id := uid, book_id := payload.book_id,
             source := "purchase" }] }
    .ok (purchase, db2)

/-- The database state an execution of `create_purchase` leaves behind:
the new state on success, the unchanged state on an error (every error in the
handler is raised before any write). -/
def runCreatePurchase (db : DB) (uid newPurchaseId newLibraryId : String)
    (payload : PurchaseCreate) : DB :=
  match create_purchase db uid newPurchaseId newLibraryId payload with
  | .ok (_, db2) => db2
  | .error _ => db

/-- The state left behind by the execution of `create_purchase` in which the
second `db.commit()` (`purchases.py` line 128, committing the library insert)
fails.  The handler commits the purchase insert separately (line 118), so
that commit is already durable; the failed second transaction rolls back only
the library insert.  Returns `none` for the executions in which no library
insert is attempted (an earlier error, or the library row already present),
`some` of the resulting state otherwise. -/
def create_purchase_library_commit_failed (db : DB) (uid newPurchaseId : String)
    (payload : PurchaseCreate) : Option DB :=
  if !db.books.contains payload.book_id then none
  else if db.purchases.any (fun r => r.user_id == uid && r.book_id == payload.book_id) then
    none
  else
    let purchase : PurchaseRow :=
      { id := newPurchaseId, user_id := uid, book_id := payload.book_id,
        price_cents := payload.price_cents, currency := payload.currency,
        transaction_id := payload.transaction_id, status := payload.status }
    let db1 : DB := { db with purchases := db.purchases ++ [purchase] }
    if db1.libraries.any (fun r => r.user_id == uid && r.book_id == payload.book_id) then
      none
    else
      some db1

/-! ## Wishlist (`src/api/routers/wishlist.py`) -/

/-- Embedding of `add_to_wishlist` (`wishlist.py`, lines 89-121): 404 if the
book does not exist, 409 "Book already in wishlist" if a wishlist row for
(uid, book) exists, otherwise insert a row with the fresh id `newId`. -/
def add_to_wishlist (db : DB) (uid newId bookId : String) :
    Except ApiError (WishlistRow × DB) :=
  if !db.books.contains bookId then
    .error (.notFound "Book not found")
  else if db.wishlists.any (fun r => r.user_id == uid && r.book_id == bookId) then
    .error (.conflict "Book already in wishlist")
  else
    let entry : WishlistRow := { id := newId, user_id := uid, book_id := bookId }
    .ok (entry, { db with wishlists := db.wishlists ++ [entry] })

/-- Embedding of `remove_from_wishlist` (`wishlist.py`, lines 168-190):
fetch the row by primary key (`db.get`); if there is none, or its owner is
not the acting user, fail 404 "Wishlist entry not found"; otherwise delete
that row. -/
def remove_from_wishlist (db : DB) (uid entryId : String) : Except ApiError DB :=
  match db.wishlists.find? (fun r => r.id == entryId) with
  | none => .error (.notFound "Wishlist entry not found")
  | some entry =>
    if entry.user_id ≠ uid then .error (.notFound "Wishlist entry not found")
    else .ok { db with wishlists := db.wishlists.eraseP (fun r => r.id == entryId) }

/-- The database state an execution of `remove_from_wishlist` leaves behind
(unchanged on an error: the 404 is raised before the delete). -/
def runRemoveFromWishlist (db : DB) (uid entryId : String) : DB :=
  match remove_from_wishlist db uid entryId with
  | .ok db2 => db2
  | .error _ => db

/-! ## Library (`src/api/routers/library.py`) -/

/-- Embedding of `add_to_library` (`library.py`, lines 101-133): 404 if the
book does not exist, 409 "Book already in library" if a library row for
(uid, book) exists, otherwise insert a row whose source is the payload
source when truthy and "manual" otherwise (`payload.source or "manual"`). -/
def add_to_library (db : DB) (uid newId bookId : String) (source : Option String) :
    Except ApiError (LibraryRow × DB) :=
  if !db.books.contains bookId then
    .error (.notFound "Book not found")
  else if db.libraries.any (fun r => r.user_id == uid && r.book_id == bookId) then
    .error (.conflict "Book already in library")
  else
    let src : String := match source with
      | some s => if s = "" then "manual" else s
      | none => "manual"
    let entry : LibraryRow := { id := newId, user_id := uid, book_id := bookId, source := src }
    .ok (entry, { db with libraries := db.libraries ++ [entry] })

/-- Embedding of `remove_from_library` (`library.py`, lines 180-202): fetch
by primary key; 404 "Library entry not found" if absent or owned by a
different user; otherwise delete the row. -/
def remove_from_library (db : DB) (uid entryId : String) : Except ApiError DB :=
  match db.libraries.find? (fun r => r.id == entryId) with
  | none => .error (.notFound "Library entry not found")
  | some entry =>
    if entry.user_id ≠ uid then .error (.notFound "Library entry not found")
    else .ok { db with libraries := db.libraries.eraseP (fun r => r.id == entryId) }

/-- The database state an execution of `remove_from_library` leaves behind
(unchanged on an error). -/
def runRemoveFromLibrary (db : DB) (uid entryId : String) : DB :=
  match remove_from_library db uid entryId with
  | .ok db2 => db2
  | .error _ => db

/-! ## Reading progress (`src/api/routers/reading.py`) -/

/-- The `ReadingProgressUpsertRequest` payload (`reading.py`, lines 22-27)
together with the explicitly-supplied field set that
`payload.model_dump(exclude_unset=True)` reports: outer `none` means the
caller did not supply the field.  For the nullable columns the inner
`Option` is the supplied value; for the two non-nullable columns an
explicitly supplied null (which the storage layer would reject) is not
modelled. -/
structure ReadingProgressUpsert where
  progress_percent : Option ℚ
  current_chapter : Option (Option String)
  current_location : Option (Option String)
  is_completed : Option Bool
  deriving DecidableEq, Repr

/-- The `setattr` loop of `upsert_progress_for_book` (`reading.py`, lines
181-183): overwrite exactly the explicitly supplied fields of a row. -/
def applyProgressFields (r : ReadingProgressRow) (p : ReadingProgressUpsert) :
    ReadingProgressRow :=
  { r with
    progress_percent := p.progress_percent.getD r.progress_percent
    current_chapter := p.current_chapter.getD r.current_chapter
    current_location := p.current_location.getD r.current_location
    is_completed := p.is_completed.getD r.is_completed }

/-- A fresh `ReadingProgress(user_id=..., book_id=...)` row (`reading.py`,
line 178) with the column defaults of the model. -/
def newProgressRow (newId uid bookId : String) : ReadingProgressRow :=
  { id := newId, user_id := uid, book_id := bookId,
    progress_percent := 0, current_chapter := none, current_location := none,
    is_completed := false }

/-- Embedding of `upsert_progress_for_book` (`reading.py`, lines 139-191):
404 if the book does not exist; otherwise fetch the progress row for
(uid, book); create a fresh default row if absent; apply the explicitly
supplied payload fields; report whether the row was created.  The returned
Bool is the `created` flag (true: HTTP 201, false: HTTP 200). -/
def upsert_progress_for_book (db : DB) (uid newId bookId : String)
    (p : ReadingProgressUpsert) : Except ApiError (ReadingProgressRow × Bool × DB) :=
  if !db.books.contains bookId then
    .error (.notFound "Book not found")
  else
    match db.progresses.find? (fun r => r.user_id == uid && r.book_id == bookId) with
    | some r =>
      let r2 := applyProgressFields r p
      let rows := db.progresses.map (fun x =>
        if x.user_id == uid && x.book_id == bookId then applyProgressFields x p else x)
      .ok (r2, false, { db with progresses := rows })
    | none =>
      let r2 := applyProgressFields (newProgressRow newId uid bookId) p
      .ok (r2, true, { db with progresses := db.progresses ++ [r2] })

/-- The HTTP status reported by the upsert: 201 when the row was created,
200 (the route default) when it was updated (`reading.py`, lines 189-190). -/
def upsertStatus (created : Bool) : Nat := if created then 201 else 200

/-! ## Categories (`src/api/routers/categories.py`) -/

/-- The character class `[a-z0-9]` of the slug regexes: the characters a
slug keeps after lowercasing. -/
def isSlugChar (c : Char) : Bool :=
  (Char.ofNat 97 ≤ c && c ≤ Char.ofNat 122) || (Char.ofNat 48 ≤ c && c ≤ Char.ofNat 57)

/-- The substitution of the regex `[^a-z0-9]+` by `"-"` (`categories.py`,
line 28): each maximal run of characters outside the class becomes a single
hyphen.  The Bool argument records being inside such a run (so only the
first character of the run emits the hyphen). -/
def slugReplaceAux : Bool → List Char → List Char
  | _, [] => []
  | inRun, c :: rest =>
    if isSlugChar c then c :: slugReplaceAux false rest
    else if inRun then slugReplaceAux true rest
    else Char.ofNat 45 :: slugReplaceAux true rest

/-- The run substitution started outside a run. -/
def slugReplace (l : List Char) : List Char := slugReplaceAux false l

/-- The substitution of the regex of two or more hyphens by `"-"`
(`categories.py`, line 29): collapse each run of hyphens to a single hyphen
(collapsing a run of length one is the identity, so this transcribes the
regex).  The Bool argument records being inside a hyphen run. -/
def collapseHyphensAux : Bool → List Char → List Char
  | _, [] => []
  | inRun, c :: rest =>
    if c = Char.ofNat 45 then
      if inRun then collapseHyphensAux true rest
      else Char.ofNat 45 :: collapseHyphensAux true rest
    else c :: collapseHyphensAux false rest

/-- The hyphen-run collapse started outside a run. -/
def collapseHyphens (l : List Char) : List Char := collapseHyphensAux false l

/-- `.strip("-")` (`categories.py`, line 29): drop leading and trailing
hyphens. -/
def trimHyphens (l : List Char) : List Char :=
  ((l.dropWhile (fun c => c == Char.ofNat 45)).reverse.dropWhile
    (fun c => c == Char.ofNat 45)).reverse

/-- Python `str.strip()` (`categories.py`, line 27): drop leading and
trailing whitespace. -/
def stripWhitespace (l : List Char) : List Char :=
  ((l.dropWhile Char.isWhitespace).reverse.dropWhile Char.isWhitespace).reverse

/-- Embedding of `_slugify` (`categories.py`, lines 18-30): strip
whitespace, lowercase, replace runs of non-alphanumeric characters with a
single hyphen, collapse hyphen runs, trim leading/trailing hyphens, and fall
back to the literal "category" when the result is empty. -/
def _slugify (value : String) : String :=
  let lowered := (stripWhitespace value.toList).map Char.toLower
  let replaced := slugReplace lowered
  let collapsed := collapseHyphens replaced
  let trimmed := trimHyphens collapsed
  if trimmed.isEmpty then "category" else String.mk trimmed

/-- A row of the `categories` table (`src/models/category.py`). -/
structure CategoryRow where
  id : String
  name : String
  slug : String
  deriving DecidableEq, Repr

/-- The `CategoryCreate` schema (`src/schemas/category.py`): a name and an
optional slug. -/
structure CategoryCreate where
  name : String
  slug : Option String
  deriving DecidableEq, Repr

/-- The `CategoryUpdate` schema with the explicitly-supplied field set of
`payload.model_dump(exclude_unset=True)`: outer `none` means the field was
not supplied, `some none` an explicitly supplied null. -/
structure CategoryUpdate where
  name : Option (Option String)
  slug : Option (Option String)
  deriving DecidableEq, Repr

/-- Embedding of `create_category` (`categories.py`, lines 91-112): the slug
is the payload slug when truthy (`payload.slug or _slugify(payload.name)`),
else the slugified name; 409 "Category slug already exists" when a category
with that slug exists; otherwise the category is inserted, storing the slug
verbatim. -/
def create_category (cats : List CategoryRow) (newId : String)
    (payload : CategoryCreate) : Except ApiError (CategoryRow × List CategoryRow) :=
  let slug : String := match payload.slug with
    | some s => if s = "" then _slugify payload.name else s
    | none => _slugify payload.name
  if cats.any (fun c => c.slug == slug) then
    .error (.conflict "Category slug already exists")
  else
    let cat : CategoryRow := { id := newId, name := payload.name, slug := slug }
    .ok (cat, cats ++ [cat])

/-- Embedding of `update_category` (`categories.py`, lines 171-208): fetch
by id (404 if absent); apply a supplied non-null name; then the new slug is
the supplied slug when truthy, the slugification of the (updated) name when
the slug field is supplied but falsy, the slugification of the supplied name
when only a truthy name is supplied, and the current slug otherwise; when
the new slug differs from the current one its uniqueness among the other
categories is enforced (409). -/
def update_category (cats : List CategoryRow) (catId : String)
    (payload : CategoryUpdate) : Except ApiError (CategoryRow × List CategoryRow) :=
  match cats.find? (fun c => c.id == catId) with
  | none => .error (.notFound "Category not found")
  | some cat =>
    let name : String := match payload.name with
      | some (some n) => n
      | _ => cat.name
    let new_slug : String := match payload.slug with
      | some (some v) => if v = "" then _slugify name else v
      | some none => _slugify name
      | none => match payload.name with
        | some (some n) => if n = "" then cat.slug else _slugify n
        | _ => cat.slug
    if new_slug ≠ cat.slug &&
        cats.any (fun c => c.slug == new_slug && c.id != cat.id) then
      .error (.conflict "Category slug already exists")
    else
      let cat2 : CategoryRow := { cat with name := name, slug := new_slug }
      .ok (cat2, cats.map (fun c => if c.id == cat.id then cat2 else c))

/-! ## The per-(user, book) uniqueness invariant

`__table_args__` of the four user-book tables declare a `UniqueConstraint`
on `(user_id, book_id)` (`wishlist.py` lines 32-34, `purchase.py` line 36,
`library.py` line 33, `reading_progress.py` line 36): at most one row per
(user, book) pair, stated here as `Nodup` of the mapped keys. -/

/-- The invariant: each of the four user-book tables has no two rows with
the same (user_id, book_id) pair. -/
def DB.Inv (db : DB) : Prop :=
  (db.wishlists.map WishlistRow.pairKey).Nodup ∧
  (db.purchases.map PurchaseRow.pairKey).Nodup ∧
  (db.libraries.map LibraryRow.pairKey).Nodup ∧
  (db.progresses.map ReadingProgressRow.pairKey).Nodup

instance (db : DB) : Decidable db.Inv := by
  unfold DB.Inv
  infer_instance

/-- Appending a row whose key is absent preserves key-uniqueness. -/
theorem nodup_map_append_singleton {α : Type} (key : α → String × String)
    (l : List α) (x : α) (h : (l.map key).Nodup)
    (hx : ∀ r ∈ l, key r ≠ key x) : ((l ++ [x]).map key).Nodup := by
  rw [List.map_append, List.nodup_append]
  refine ⟨h, List.nodup_singleton _, ?_⟩
  intro a ha hb
  simp only [List.map_cons, List.map_nil, List.mem_singleton] at hb
  rcases List.mem_map.mp ha with ⟨r, hr, rfl⟩
  exact hx r hr hb

/-- Removing rows (a sublist of the table) preserves key-uniqueness. -/
theorem nodup_map_sublist {α : Type} (key : α → String × String)
    {l' l : List α} (hs : l'.Sublist l) (h : (l.map key).Nodup) :
    (l'.map key).Nodup :=
  (hs.map key).nodup h

/-- Rewriting rows without changing their keys preserves key-uniqueness. -/
theorem nodup_map_map_key_preserving {α : Type} (key : α → String × String)
    (l : List α) (g : α → α) (hg : ∀ r ∈ l, key (g r) = key r)
    (h : (l.map key).Nodup) : ((l.map g).map key).Nodup := by
  rw [List.map_map]
  have : l.map (key ∘ g) = l.map key := List.map_congr_left (by
    intro a ha
    exact hg a ha)
  rw [this]
  exact h

/-- The write operations of the modelled API surface, with their fresh UUID
arguments.  Their sequential application generates the reachable states. -/
inductive Op where
  | addBook (bookId : String)
  | addWishlist (uid newId bookId : String)
  | createPurchase (uid newPurchaseId newLibraryId : String) (payload : PurchaseCreate)
  | addLibrary (uid newId bookId : String) (source : Option String)
  | upsertProgress (uid newId bookId : String) (payload : ReadingProgressUpsert)
  | removeWishlist (uid entryId : String)
  | removeLibrary (uid entryId : String)
  deriving DecidableEq, Repr

/-- The state an operation leaves behind: the new state on success, the
unchanged state on an error. -/
def applyOp (db : DB) : Op → DB
  | .addBook b => { db with books := db.books ++ [b] }
  | .addWishlist uid nid bid =>
    match add_to_wishlist db uid nid bid with
    | .ok (_, db2) => db2
    | .error _ => db
  | .createPurchase uid pid lid payload =>
    match create_purchase db uid pid lid payload with
    | .ok (_, db2) => db2
    | .error _ => db
  | .addLibrary uid nid bid src =>
    match add_to_library db uid nid bid src with
    | .ok (_, db2) => db2
    | .error _ => db
  | .upsertProgress uid nid bid payload =>
    match upsert_progress_for_book db uid nid bid payload with
    | .ok (_, _, db2) => db2
    | .error _ => db
  | .removeWishlist uid eid => runRemoveFromWishlist db uid eid
  | .removeLibrary uid eid => runRemoveFromLibrary db uid eid

/-- Sequential application of a list of operations. -/
def applyOps (db : DB) (ops : List Op) : DB := ops.foldl applyOp db

/-- The empty initial database. -/
def initDB : DB :=
  { books := [], wishlists := [], purchases := [], libraries := [], progresses := [] }

/-- A failed `.any` duplicate check certifies the key is absent. -/
theorem forall_pairKey_ne_of_any_eq_false {α : Type} (key : α → String × String)
    (l : List α) (uid bid : String)
    (h : l.any (fun r => (key r).1 == uid && (key r).2 == bid) = false) :
    ∀ r ∈ l, key r ≠ (uid, bid) := by
  intro r hr
  rw [List.any_eq_false] at h
  have := h r hr
  simp only [Bool.and_eq_true, beq_iff_eq] at this
  intro hk
  exact this ⟨by rw [hk], by rw [hk]⟩

/-- Applying the payload fields never changes the (user_id, book_id) of a row. -/
theorem applyProgressFields_pairKey (r : ReadingProgressRow) (p : ReadingProgressUpsert) :
    (applyProgressFields r p).pairKey = r.pairKey := rfl

/-- Every modelled operation preserves the per-(user, book) uniqueness
invariant. -/
theorem inv_applyOp (db : DB) (op : Op) (h : db.Inv) : (applyOp db op).Inv := by
  obtain ⟨hw, hp, hl, hg⟩ := h
  cases op with
  | addBook b => exact ⟨hw, hp, hl, hg⟩
  | addWishlist uid nid bid =>
    simp only [applyOp]
    cases heq : add_to_wishlist db uid nid bid with
    | error e => exact ⟨hw, hp, hl, hg⟩
    | ok v =>
      obtain ⟨entry, db2⟩ := v
      unfold add_to_wishlist at heq
      split_ifs at heq with h1 h2
      simp only [Except.ok.injEq, Prod.mk.injEq] at heq
      obtain ⟨hentry, hdb2⟩ := heq
      subst hdb2
      refine ⟨?_, hp, hl, hg⟩
      refine nodup_map_append_singleton _ _ _ hw ?_
      intro r hr
      have := forall_pairKey_ne_of_any_eq_false WishlistRow.pairKey db.wishlists uid bid
        (by simpa using h2) r hr
      simpa [WishlistRow.pairKey] using this
  | createPurchase uid pid lid payload =>
    simp only [applyOp]
    cases heq : create_purchase db uid pid lid payload with
    | error e => exact ⟨hw, hp, hl, hg⟩
    | ok v =>
      obtain ⟨pr, db2⟩ := v
      unfold create_purchase at heq
      split_ifs at heq with h1 h2
      simp only [Except.ok.injEq, Prod.mk.injEq] at heq
      obtain ⟨hpr, hdb2⟩ := heq
      by_cases h3 : (db.libraries.any
          (fun r => r.user_id == uid && r.book_id == payload.book_id)) = true
      · simp only [h3, if_true] at hdb2
        subst hdb2
        refine ⟨hw, ?_, hl, hg⟩
        refine nodup_map_append_singleton _ _ _ hp ?_
        intro r hr
        exact forall_pairKey_ne_of_any_eq_false PurchaseRow.pairKey db.purchases uid
          payload.book_id (by simpa using h2) r hr
      · simp only [h3, if_false] at hdb2
        subst hdb2
        refine ⟨hw, ?_, ?_, hg⟩
        · refine nodup_map_append_singleton _ _ _ hp ?_
          intro r hr
          exact forall_pairKey_ne_of_any_eq_false PurchaseRow.pairKey db.purchases uid
            payload.book_id (by simpa using h2) r hr
        · refine nodup_map_append_singleton _ _ _ hl ?_
          intro r hr
          exact forall_pairKey_ne_of_any_eq_false LibraryRow.pairKey db.libraries uid
            payload.book_id (by simpa using h3) r hr
  | addLibrary uid nid bid src =>
    simp only [applyOp]
    cases heq : add_to_library db uid nid bid src with
    | error e => exact ⟨hw, hp, hl, hg⟩
    | ok v =>
      obtain ⟨entry, db2⟩ := v
      unfold add_to_library at heq
      split_ifs at heq with h1 h2
      simp only [Except.ok.injEq, Prod.mk.injEq] at heq
      obtain ⟨hentry, hdb2⟩ := heq
      subst hdb2
      refine ⟨hw, hp, ?_, hg⟩
      refine nodup_map_append_singleton _ _ _ hl ?_
      intro r hr
      have := forall_pairKey_ne_of_any_eq_false LibraryRow.pairKey db.libraries uid bid
        (by simpa using h2) r hr
      simpa [LibraryRow.pairKey] using this
  | upsertProgress uid nid bid payload =>
    simp only [applyOp]
    cases heq : upsert_progress_for_book db uid nid bid payload with
    | error e => exact ⟨hw, hp, hl, hg⟩
    | ok v =>
      obtain ⟨row, created, db2⟩ := v
      unfold upsert_progress_for_book at heq
      split_ifs at heq with h1
      cases hf : db.progresses.find? (fun r => r.user_id == uid && r.book_id == bid) with
      | some r =>
        rw [hf] at heq
        simp only [Except.ok.injEq, Prod.mk.injEq] at heq
        obtain ⟨hrow, hcr, hdb2⟩ := heq
        subst hdb2
        refine ⟨hw, hp, hl, ?_⟩
        refine nodup_map_map_key_preserving _ _ _ ?_ hg
        intro x hx
        by_cases hc : (x.user_id == uid && x.book_id == bid) = true
        · simp only [hc, if_true]
          exact applyProgressFields_pairKey x payload
        · simp only [Bool.not_eq_true] at hc
          simp only [hc, Bool.false_eq_true, if_false]
      | none =>
        rw [hf] at heq
        simp only [Except.ok.injEq, Prod.mk.injEq] at heq
        obtain ⟨hrow, hcr, hdb2⟩ := heq
        subst hdb2
        refine ⟨hw, hp, hl, ?_⟩
        refine nodup_map_append_singleton _ _ _ hg ?_
        intro r hr
        have hnp := (List.find?_eq_none.mp hf) r hr
        simp only [Bool.and_eq_true, beq_iff_eq, not_and] at hnp
        intro hk
        have : r.pairKey = (uid, bid) := by
          rw [hk]
          rfl
        rw [ReadingProgressRow.pairKey, Prod.mk.injEq] at this
        exact hnp this.1 this.2
  | removeWishlist uid eid =>
    simp only [applyOp, runRemoveFromWishlist]
    cases heq : remove_from_wishlist db uid eid with
    | error e => exact ⟨hw, hp, hl, hg⟩
    | ok db2 =>
      unfold remove_from_wishlist at heq
      split at heq
      · simp at heq
      · split_ifs at heq with h1
        simp only [Except.ok.injEq] at heq
        subst heq
        exact ⟨nodup_map_sublist _ (List.eraseP_sublist _) hw, hp, hl, hg⟩
  | removeLibrary uid eid =>
    simp only [applyOp, runRemoveFromLibrary]
    cases heq : remove_from_library db uid eid with
    | error e => exact ⟨hw, hp, hl, hg⟩
    | ok db2 =>
      unfold remove_from_library at heq
      split at heq
      · simp at heq
      · split_ifs at heq with h1
        simp only [Except.ok.injEq] at heq
        subst heq
        exact ⟨hw, hp, nodup_map_sublist _ (List.eraseP_sublist _) hl, hg⟩

/-- Sequential application of any operation list preserves the invariant. -/
theorem inv_applyOps (db : DB) (h : db.Inv) (ops : List Op) : (applyOps db ops).Inv := by
  induction ops generalizing db with
  | nil => exact h
  | cons op rest ih =>
    simp only [applyOps, List.foldl_cons]
    exact ih (applyOp db op) (inv_applyOp db op h)

/-- C3: every reachable state keeps at most one row per (user_id, book_id)
pair in each of the Wishlist, Purchase, Library and ReadingProgress tables:
every operation preserves the invariant, every state reached from the empty
database satisfies it, and a duplicate create attempt on the three
check-then-insert paths is surfaced as a 409 Conflict that leaves the state
unchanged (no second row, no crash). -/
theorem uniqueness_invariant_correct :
    (∀ (db : DB) (op : Op), db.Inv → (applyOp db op).Inv) ∧
    (∀ ops : List Op, (applyOps initDB ops).Inv) ∧
    (∀ (db : DB) (uid nid bid : String), (∃ r ∈ db.wishlists, r.pairKey = (uid, bid)) →
      db.books.contains bid = true →
      add_to_wishlist db uid nid bid = .error (.conflict "Book already in wishlist") ∧
      applyOp db (Op.addWishlist uid nid bid) = db) ∧
    (∀ (db : DB) (uid pid lid : String) (payload : PurchaseCreate),
      (∃ r ∈ db.purchases, r.pairKey = (uid, payload.book_id)) →
      db.books.contains payload.book_id = true →
      create_purchase db uid pid lid payload = .error (.conflict "Book already purchased") ∧
      applyOp db (Op.createPurchase uid pid lid payload) = db) ∧
    (∀ (db : DB) (uid nid bid : String) (source : Option String),
      (∃ r ∈ db.libraries, r.pairKey = (uid, bid)) →
      db.books.contains bid = true →
      add_to_library db uid nid bid source = .error (.conflict "Book already in library") ∧
      applyOp db (Op.addLibrary uid nid bid source) = db) := by
  refine ⟨fun db op h => inv_applyOp db op h, ?_, ?_, ?_, ?_⟩
  · intro ops
    exact inv_applyOps initDB (by decide) ops
  · intro db uid nid bid hex hbook
    have hany : (db.wishlists.any fun r => r.user_id == uid && r.book_id == bid) = true := by
      rcases hex with ⟨r, hr, hk⟩
      simp only [WishlistRow.pairKey, Prod.mk.injEq] at hk
      exact List.any_eq_true.mpr ⟨r, hr, by simp [hk.1, hk.2]⟩
    have hmem : bid ∈ db.books := by simpa using hbook
    have herr : add_to_wishlist db uid nid bid =
        .error (.conflict "Book already in wishlist") := by
      simp [add_to_wishlist, hmem, hany]
    exact ⟨herr, by simp [applyOp, herr]⟩
  · intro db uid pid lid payload hex hbook
    have hany : (db.purchases.any
        fun r => r.user_id == uid && r.book_id == payload.book_id) = true := by
      rcases hex with ⟨r, hr, hk⟩
      simp only [PurchaseRow.pairKey, Prod.mk.injEq] at hk
      exact List.any_eq_true.mpr ⟨r, hr, by simp [hk.1, hk.2]⟩
    have hmem : payload.book_id ∈ db.books := by simpa using hbook
    have herr : create_purchase db uid pid lid payload =
        .error (.conflict "Book already purchased") := by
      simp [create_purchase, hmem, hany]
    exact ⟨herr, by simp [applyOp, herr]⟩
  · intro db uid nid bid source hex hbook
    have hany : (db.libraries.any fun r => r.user_id == uid && r.book_id == bid) = true := by
      rcases hex with ⟨r, hr, hk⟩
      simp only [LibraryRow.pairKey, Prod.mk.injEq] at hk
      exact List.any_eq_true.mpr ⟨r, hr, by simp [hk.1, hk.2]⟩
    have hmem : bid ∈ db.books := by simpa using hbook
    have herr : add_to_library db uid nid bid source =
        .error (.conflict "Book already in library") := by
      simp [add_to_library, hmem, hany]
    exact ⟨herr, by simp [applyOp, herr]⟩

/-- Witness for C3: a concrete duplicate wishlist attempt receives the 409
Conflict and the invariant survives a concrete operation. -/
theorem uniqueness_invariant_correct_witness :
    add_to_wishlist (DB.mk ["b1"] [WishlistRow.mk "w1" "u1" "b1"] [] [] []) "u1" "w2" "b1" =
      .error (.conflict "Book already in wishlist") ∧
    (applyOp (DB.mk ["b1"] [WishlistRow.mk "w1" "u1" "b1"] [] [] [])
      (Op.addBook "b2")).Inv :=
  ⟨(uniqueness_invariant_correct.2.2.1
      (DB.mk ["b1"] [WishlistRow.mk "w1" "u1" "b1"] [] [] []) "u1" "w2" "b1"
      ⟨WishlistRow.mk "w1" "u1" "b1", by decide, by decide⟩ (by decide)).1,
   uniqueness_invariant_correct.1 (DB.mk ["b1"] [WishlistRow.mk "w1" "u1" "b1"] [] [] [])
      (Op.addBook "b2") (by decide)⟩

/-- C1: for every user and existing book with no prior purchase row for the
pair, `create_purchase` succeeds, inserts the purchase row, and ensures a
library row exists for the pair — inserting one with source "purchase" when
absent and leaving the table untouched when present; a second call for the
same pair fails with 409 "Book already purchased" and changes nothing. -/
theorem create_purchase_correct (db : DB) (uid pid lid : String)
    (payload : PurchaseCreate)
    (hbook : db.books.contains payload.book_id = true)
    (hnone : (db.purchases.any
      fun r => r.user_id == uid && r.book_id == payload.book_id) = false) :
    ∃ (pr : PurchaseRow) (db2 : DB),
      create_purchase db uid pid lid payload = .ok (pr, db2) ∧
      pr.user_id = uid ∧ pr.book_id = payload.book_id ∧
      pr.price_cents = payload.price_cents ∧ pr.currency = payload.currency ∧
      pr.transaction_id = payload.transaction_id ∧ pr.status = payload.status ∧
      db2.purchases = db.purchases ++ [pr] ∧
      (∃ r ∈ db2.libraries, r.user_id = uid ∧ r.book_id = payload.book_id) ∧
      ((db.libraries.any
          fun r => r.user_id == uid && r.book_id == payload.book_id) = false →
        db2.libraries = db.libraries ++
          [LibraryRow.mk lid uid payload.book_id "purchase"]) ∧
      ((db.libraries.any
          fun r => r.user_id == uid && r.book_id == payload.book_id) = true →
        db2.libraries = db.libraries) ∧
      (∀ pid2 lid2 : String,
        create_purchase db2 uid pid2 lid2 payload =
          .error (.conflict "Book already purchased") ∧
        (ApiError.conflict "Book already purchased").statusCode = 409 ∧
        runCreatePurchase db2 uid pid2 lid2 payload = db2) := by
  have hmem : payload.book_id ∈ db.books := by simpa using hbook
  by_cases hlib : (db.libraries.any
      fun r => r.user_id == uid && r.book_id == payload.book_id) = true
  · refine ⟨⟨pid, uid, payload.book_id, payload.price_cents, payload.currency,
      payload.transaction_id, payload.status⟩,
      { db with purchases := db.purchases ++
        [⟨pid, uid, payload.book_id, payload.price_cents, payload.currency,
          payload.transaction_id, payload.status⟩] },
      ?_, rfl, rfl, rfl, rfl, rfl, rfl, rfl, ?_, ?_, fun _ => rfl, ?_⟩
    · simp [create_purchase, hmem, hnone, hlib]
    · rcases List.any_eq_true.mp hlib with ⟨r, hr, hcond⟩
      simp only [Bool.and_eq_true, beq_iff_eq] at hcond
      exact ⟨r, hr, hcond.1, hcond.2⟩
    · intro hfalse
      rw [hfalse] at hlib
      exact absurd hlib (by simp)
    · intro pid2 lid2
      have hany2 : (List.any (db.purchases ++
          [⟨pid, uid, payload.book_id, payload.price_cents, payload.currency,
            payload.transaction_id, payload.status⟩])
          fun r => r.user_id == uid && r.book_id == payload.book_id) = true := by
        simp [List.any_append]
      have herr : create_purchase
          ({ db with purchases := db.purchases ++
            [⟨pid, uid, payload.book_id, payload.price_cents, payload.currency,
              payload.transaction_id, payload.status⟩] }) uid pid2 lid2 payload =
          .error (.conflict "Book already purchased") := by
        simp [create_purchase, hmem, hany2]
      exact ⟨herr, rfl, by simp [runCreatePurchase, herr]⟩
  · refine ⟨⟨pid, uid, payload.book_id, payload.price_cents, payload.currency,
      payload.transaction_id, payload.status⟩,
      { db with
        purchases := db.purchases ++
          [⟨pid, uid, payload.book_id, payload.price_cents, payload.currency,
            payload.transaction_id, payload.status⟩],
        libraries := db.libraries ++ [LibraryRow.mk lid uid payload.book_id "purchase"] },
      ?_, rfl, rfl, rfl, rfl, rfl, rfl, rfl, ?_, fun _ => rfl, ?_, ?_⟩
    · simp [create_purchase, hmem, hnone, hlib]
    · exact ⟨LibraryRow.mk lid uid payload.book_id "purchase", by simp, rfl, rfl⟩
    · intro htrue
      rw [htrue] at hlib
      exact absurd rfl hlib
    · intro pid2 lid2
      have hany2 : (List.any (db.purchases ++
          [⟨pid, uid, payload.book_id, payload.price_cents, payload.currency,
            payload.transaction_id, payload.status⟩])
          fun r => r.user_id == uid && r.book_id == payload.book_id) = true := by
        simp [List.any_append]
      have herr : create_purchase
          ({ db with
            purchases := db.purchases ++
              [⟨pid, uid, payload.book_id, payload.price_cents, payload.currency,
                payload.transaction_id, payload.status⟩],
            libraries := db.libraries ++
              [LibraryRow.mk lid uid payload.book_id "purchase"] })
            uid pid2 lid2 payload =
          .error (.conflict "Book already purchased") := by
        simp [create_purchase, hmem, hany2]
      exact ⟨herr, rfl, by simp [runCreatePurchase, herr]⟩

/-- Witness for C1: a concrete first purchase on an empty state succeeds. -/
theorem create_purchase_correct_witness :
    (create_purchase (DB.mk ["b1"] [] [] [] []) "u1" "p1" "l1"
      (PurchaseCreate.mk "b1" 499 "USD" none "completed")).isOk = true := by
  obtain ⟨pr, db2, h, -⟩ := create_purchase_correct (DB.mk ["b1"] [] [] [] [])
    "u1" "p1" "l1" (PurchaseCreate.mk "b1" 499 "USD" none "completed")
    (by decide) (by decide)
  rw [h]
  rfl

/-- C2: the two writes of `create_purchase` are not atomic.  On the concrete
input of user "u1" buying existing book "b1" with an empty library, the
execution in which the library-insert commit fails leaves the purchase row
committed for ("u1", "b1") with no library row for that pair — precisely the
orphaned state the claim says is unreachable (the purchase commit at line 118
of `purchases.py` is a separate, earlier transaction from the library commit
at line 128). -/
theorem create_purchase_not_atomic :
    create_purchase_library_commit_failed (DB.mk ["b1"] [] [] [] []) "u1" "p1"
      (PurchaseCreate.mk "b1" 499 "USD" none "completed") =
      some (DB.mk ["b1"] []
        [PurchaseRow.mk "p1" "u1" "b1" 499 "USD" none "completed"] [] []) ∧
    ((DB.mk ["b1"] []
        [PurchaseRow.mk "p1" "u1" "b1" 499 "USD" none "completed"] [] []).purchases.any
      fun r => r.user_id == "u1" && r.book_id == "b1") = true ∧
    ((DB.mk ["b1"] []
        [PurchaseRow.mk "p1" "u1" "b1" 499 "USD" none "completed"] [] []).libraries.any
      fun r => r.user_id == "u1" && r.book_id == "b1") = false := by
  exact ⟨by decide, by decide, by decide⟩

/-- C4: for every user and existing book, the reading-progress upsert
creates a row when none exists for the pair — unsupplied fields taking the
column defaults (0 percent, not completed, no chapter or location) — and
reports created (201); when a row exists it overwrites exactly the supplied
fields, leaves every unsupplied field of the row unchanged (and every row of
a different pair in place), and reports updated (200). -/
theorem upsert_progress_correct (db : DB) (uid nid bid : String)
    (p : ReadingProgressUpsert)
    (hbook : db.books.contains bid = true) :
    (db.progresses.find? (fun r => r.user_id == uid && r.book_id == bid) = none →
      ∃ (r : ReadingProgressRow) (db2 : DB),
        upsert_progress_for_book db uid nid bid p = .ok (r, true, db2) ∧
        upsertStatus true = 201 ∧
        db2.progresses = db.progresses ++ [r] ∧
        r.user_id = uid ∧ r.book_id = bid ∧
        r.progress_percent = p.progress_percent.getD 0 ∧
        r.current_chapter = p.current_chapter.getD none ∧
        r.current_location = p.current_location.getD none ∧
        r.is_completed = p.is_completed.getD false) ∧
    (∀ r0 : ReadingProgressRow,
      db.progresses.find? (fun r => r.user_id == uid && r.book_id == bid) = some r0 →
      ∃ (r : ReadingProgressRow) (db2 : DB),
        upsert_progress_for_book db uid nid bid p = .ok (r, false, db2) ∧
        upsertStatus false = 200 ∧
        r.id = r0.id ∧ r.user_id = r0.user_id ∧ r.book_id = r0.book_id ∧
        r.progress_percent = p.progress_percent.getD r0.progress_percent ∧
        r.current_chapter = p.current_chapter.getD r0.current_chapter ∧
        r.current_location = p.current_location.getD r0.current_location ∧
        r.is_completed = p.is_completed.getD r0.is_completed ∧
        (p.progress_percent = none → r.progress_percent = r0.progress_percent) ∧
        (p.current_chapter = none → r.current_chapter = r0.current_chapter) ∧
        (p.current_location = none → r.current_location = r0.current_location) ∧
        (p.is_completed = none → r.is_completed = r0.is_completed) ∧
        db2.books = db.books ∧ db2.wishlists = db.wishlists ∧
        db2.purchases = db.purchases ∧ db2.libraries = db.libraries ∧
        (∀ x ∈ db.progresses,
          ¬(x.user_id = uid ∧ x.book_id = bid) → x ∈ db2.progresses)) := by
  have hmem : bid ∈ db.books := by simpa using hbook
  constructor
  · intro hf
    refine ⟨applyProgressFields (newProgressRow nid uid bid) p,
      { db with progresses := db.progresses ++
        [applyProgressFields (newProgressRow nid uid bid) p] },
      ?_, rfl, rfl, rfl, rfl, rfl, rfl, rfl, rfl⟩
    simp [upsert_progress_for_book, hmem, hf]
  · intro r0 hf
    refine ⟨applyProgressFields r0 p,
      { db with progresses := db.progresses.map (fun x =>
        if x.user_id == uid && x.book_id == bid then applyProgressFields x p else x) },
      ?_, rfl, rfl, rfl, rfl, rfl, rfl, rfl, rfl, ?_, ?_, ?_, ?_, rfl, rfl, rfl, rfl, ?_⟩
    · simp [upsert_progress_for_book, hmem, hf]
    · intro h
      simp [applyProgressFields, h]
    · intro h
      simp [applyProgressFields, h]
    · intro h
      simp [applyProgressFields, h]
    · intro h
      simp [applyProgressFields, h]
    · intro x hx hne
      refine List.mem_map.mpr ⟨x, hx, ?_⟩
      have hc : (x.user_id == uid && x.book_id == bid) = false := by
        rw [Bool.and_eq_false_iff]
        by_cases h1 : x.user_id = uid
        · right
          simp only [beq_eq_false_iff_ne, ne_eq]
          intro h2
          exact hne ⟨h1, h2⟩
        · left
          simp only [beq_eq_false_iff_ne, ne_eq]
          exact h1
      simp [hc]

/-- Witness for C4: the concrete scenario of the specification — a first call supplying
only 42.5 percent creates the row and a second call supplying only the
completion flag updates it, leaving the percentage unchanged. -/
theorem upsert_progress_correct_witness :
    (upsert_progress_for_book (DB.mk ["b1"] [] [] [] []) "u1" "r1" "b1"
      (ReadingProgressUpsert.mk (some (85/2)) none none none)).isOk = true ∧
    (upsert_progress_for_book
      (DB.mk ["b1"] [] [] []
        [ReadingProgressRow.mk "r1" "u1" "b1" (85/2) none none false])
      "u1" "r2" "b1" (ReadingProgressUpsert.mk none none none (some true))).isOk = true := by
  constructor
  · obtain ⟨r, db2, h, -⟩ := (upsert_progress_correct (DB.mk ["b1"] [] [] [] [])
      "u1" "r1" "b1" (ReadingProgressUpsert.mk (some (85/2)) none none none)
      (by decide)).1 rfl
    rw [h]
    rfl
  · obtain ⟨r, db2, h, -⟩ := (upsert_progress_correct
      (DB.mk ["b1"] [] [] []
        [ReadingProgressRow.mk "r1" "u1" "b1" (85/2) none none false])
      "u1" "r2" "b1" (ReadingProgressUpsert.mk none none none (some true))
      (by decide)).2
      (ReadingProgressRow.mk "r1" "u1" "b1" (85/2) none none false) rfl
    rw [h]
    rfl

/-- C6: deleting a wishlist or library entry fails with the same 404 error
both when no entry with the id exists and when the entry belongs to a user
other than the caller; every error these endpoints produce is that single
NotFound (never a Forbidden), so the two cases are externally
indistinguishable; in both failure cases no row is deleted, while a delete
by the owner removes exactly the addressed row. -/
theorem delete_ownership_check_correct :
    (∀ (db : DB) (uid eid : String),
      (db.wishlists.find? (fun r => r.id == eid) = none →
        remove_from_wishlist db uid eid = .error (.notFound "Wishlist entry not found") ∧
        runRemoveFromWishlist db uid eid = db) ∧
      (∀ e : WishlistRow, db.wishlists.find? (fun r => r.id == eid) = some e →
        e.user_id ≠ uid →
        remove_from_wishlist db uid eid = .error (.notFound "Wishlist entry not found") ∧
        runRemoveFromWishlist db uid eid = db) ∧
      (∀ e : WishlistRow, db.wishlists.find? (fun r => r.id == eid) = some e →
        e.user_id = uid →
        remove_from_wishlist db uid eid =
          .ok { db with wishlists := db.wishlists.eraseP (fun r => r.id == eid) }) ∧
      (∀ err : ApiError, remove_from_wishlist db uid eid = .error err →
        err = .notFound "Wishlist entry not found")) ∧
    (∀ (db : DB) (uid eid : String),
      (db.libraries.find? (fun r => r.id == eid) = none →
        remove_from_library db uid eid = .error (.notFound "Library entry not found") ∧
        runRemoveFromLibrary db uid eid = db) ∧
      (∀ e : LibraryRow, db.libraries.find? (fun r => r.id == eid) = some e →
        e.user_id ≠ uid →
        remove_from_library db uid eid = .error (.notFound "Library entry not found") ∧
        runRemoveFromLibrary db uid eid = db) ∧
      (∀ e : LibraryRow, db.libraries.find? (fun r => r.id == eid) = some e →
        e.user_id = uid →
        remove_from_library db uid eid =
          .ok { db with libraries := db.libraries.eraseP (fun r => r.id == eid) }) ∧
      (∀ err : ApiError, remove_from_library db uid eid = .error err →
        err = .notFound "Library entry not found")) ∧
    (ApiError.notFound "Wishlist entry not found").statusCode = 404 ∧
    (ApiError.notFound "Library entry not found").statusCode = 404 := by
  refine ⟨?_, ?_, rfl, rfl⟩
  · intro db uid eid
    refine ⟨?_, ?_, ?_, ?_⟩
    · intro hf
      have herr : remove_from_wishlist db uid eid =
          .error (.notFound "Wishlist entry not found") := by
        simp [remove_from_wishlist, hf]
      exact ⟨herr, by simp [runRemoveFromWishlist, herr]⟩
    · intro e hf hne
      have herr : remove_from_wishlist db uid eid =
          .error (.notFound "Wishlist entry not found") := by
        simp [remove_from_wishlist, hf, hne]
      exact ⟨herr, by simp [runRemoveFromWishlist, herr]⟩
    · intro e hf hown
      simp [remove_from_wishlist, hf, hown]
    · intro err herr
      unfold remove_from_wishlist at herr
      split at herr
      · simp only [Except.error.injEq] at herr
        exact herr.symm
      · split_ifs at herr with h1
        · simp only [Except.error.injEq] at herr
          exact herr.symm
  · intro db uid eid
    refine ⟨?_, ?_, ?_, ?_⟩
    · intro hf
      have herr : remove_from_library db uid eid =
          .error (.notFound "Library entry not found") := by
        simp [remove_from_library, hf]
      exact ⟨herr, by simp [runRemoveFromLibrary, herr]⟩
    · intro e hf hne
      have herr : remove_from_library db uid eid =
          .error (.notFound "Library entry not found") := by
        simp [remove_from_library, hf, hne]
      exact ⟨herr, by simp [runRemoveFromLibrary, herr]⟩
    · intro e hf hown
      simp [remove_from_library, hf, hown]
    · intro err herr
      unfold remove_from_library at herr
      split at herr
      · simp only [Except.error.injEq] at herr
        exact herr.symm
      · split_ifs at herr with h1
        · simp only [Except.error.injEq] at herr
          exact herr.symm

/-- Witness for C6: deleting a wishlist entry owned by another user yields
the same NotFound a missing entry yields. -/
theorem delete_ownership_check_correct_witness :
    remove_from_wishlist (DB.mk [] [WishlistRow.mk "w1" "u2" "b1"] [] [] []) "u1" "w1" =
      .error (.notFound "Wishlist entry not found") :=
  ((delete_ownership_check_correct.1 (DB.mk [] [WishlistRow.mk "w1" "u2" "b1"] [] [] [])
    "u1" "w1").2.1 (WishlistRow.mk "w1" "u2" "b1") rfl (by decide)).1

/-- C8: creating a category without an explicit slug stores the slug
produced by the slugification algorithm — strip/lowercase, each maximal run
of non-alphanumeric characters replaced by a single hyphen, hyphens trimmed
at both ends, literal fallback "category" when empty; in particular the name
"Sci-Fi & Fantasy!!" is stored with slug "sci-fi-fantasy". -/
theorem category_slug_generation_correct :
    (∀ (cats : List CategoryRow) (newId name : String) (cat : CategoryRow)
       (cats2 : List CategoryRow),
      create_category cats newId (CategoryCreate.mk name none) = .ok (cat, cats2) →
      cat.slug = _slugify name ∧ cat.name = name ∧ cats2 = cats ++ [cat]) ∧
    _slugify "Sci-Fi & Fantasy!!" = "sci-fi-fantasy" ∧
    _slugify "!!!" = "category" := by
  refine ⟨?_, by decide, by decide⟩
  intro cats newId name cat cats2 h
  unfold create_category at h
  simp only at h
  split_ifs at h with h1
  simp only [Except.ok.injEq, Prod.mk.injEq] at h
  obtain ⟨hcat, hcats2⟩ := h
  subst hcat
  subst hcats2
  exact ⟨rfl, rfl, rfl⟩

/-- Witness for C8: the concrete creation from the specification. -/
theorem category_slug_generation_correct_witness :
    (CategoryRow.mk "c1" "Sci-Fi & Fantasy!!" "sci-fi-fantasy").slug =
      _slugify "Sci-Fi & Fantasy!!" :=
  (category_slug_generation_correct.1 [] "c1" "Sci-Fi & Fantasy!!"
    (CategoryRow.mk "c1" "Sci-Fi & Fantasy!!" "sci-fi-fantasy")
    [CategoryRow.mk "c1" "Sci-Fi & Fantasy!!" "sci-fi-fantasy"] rfl).1

/-- C9: a category-create request with a non-empty explicit slug stores that
slug exactly — the slugification algorithm is bypassed and no URL-safety
normalization is applied, only uniqueness against existing slugs is checked —
so a stored slug can contain uppercase letters and spaces. -/
theorem explicit_slug_stored_verbatim :
    (∀ (cats : List CategoryRow) (newId name s : String) (cat : CategoryRow)
       (cats2 : List CategoryRow),
      s ≠ "" →
      create_category cats newId (CategoryCreate.mk name (some s)) = .ok (cat, cats2) →
      cat.slug = s) ∧
    (∀ (cats : List CategoryRow) (newId name s : String),
      s ≠ "" → (∀ c ∈ cats, c.slug ≠ s) →
      create_category cats newId (CategoryCreate.mk name (some s)) =
        .ok (CategoryRow.mk newId name s, cats ++ [CategoryRow.mk newId name s])) ∧
    create_category [] "c1" (CategoryCreate.mk "My Category" (some "My UPPER case slug!")) =
      .ok (CategoryRow.mk "c1" "My Category" "My UPPER case slug!",
           [CategoryRow.mk "c1" "My Category" "My UPPER case slug!"]) := by
  refine ⟨?_, ?_, rfl⟩
  · intro cats newId name s cat cats2 hs h
    unfold create_category at h
    simp only [hs, if_false] at h
    split_ifs at h with h1
    simp only [Except.ok.injEq, Prod.mk.injEq] at h
    obtain ⟨hcat, -⟩ := h
    subst hcat
    rfl
  · intro cats newId name s hs hnone
    have hany : (cats.any fun c => c.slug == (if s = "" then _slugify name else s)) = false := by
      rw [List.any_eq_false]
      intro c hc
      simp only [hs, if_false, beq_iff_eq]
      exact hnone c hc
    unfold create_category
    simp only [hs, if_false] at hany ⊢
    rw [hany]
    simp

/-- Witness for C9: the concrete non-URL-safe slug is stored verbatim. -/
theorem explicit_slug_stored_verbatim_witness :
    (CategoryRow.mk "c1" "My Category" "My UPPER case slug!").slug =
      "My UPPER case slug!" :=
  (explicit_slug_stored_verbatim.1 [] "c1" "My Category" "My UPPER case slug!"
    (CategoryRow.mk "c1" "My Category" "My UPPER case slug!")
    [CategoryRow.mk "c1" "My Category" "My UPPER case slug!"] (by decide) rfl)

/-- C10 counterexample: the claim "only when neither name nor slug is
supplied does the slug stay unchanged" and "the slug is silently regenerated
from a supplied name" both fail on concrete inputs: updating category "c1"
(name "Books", slug "books") with only the name "Books!" succeeds and leaves
the slug "books" unchanged although a name was supplied (its slugification
equals the current slug); and updating "c1" with only the name "Sci Fi"
does not regenerate the slug but fails 409 because "sci-fi" is the slug of
another category. -/
theorem update_category_slug_claim_counterexample :
    update_category
      [CategoryRow.mk "c1" "Books" "books", CategoryRow.mk "c2" "Sci Fi" "sci-fi"]
      "c1" (CategoryUpdate.mk (some (some "Books!")) none) =
      .ok (CategoryRow.mk "c1" "Books!" "books",
        [CategoryRow.mk "c1" "Books!" "books", CategoryRow.mk "c2" "Sci Fi" "sci-fi"]) ∧
    update_category
      [CategoryRow.mk "c1" "Books" "books", CategoryRow.mk "c2" "Sci Fi" "sci-fi"]
      "c1" (CategoryUpdate.mk (some (some "Sci Fi")) none) =
      .error (.conflict "Category slug already exists") :=
  ⟨rfl, rfl⟩

/-- C10 (amended): for every category update that supplies a non-empty name
and no slug field, a successful update stores exactly the slugified new name
as the slug (and the update does succeed whenever the slugified name does
not collide with the slug of a different category), so the slug changes as a side
effect of a rename whenever the slugified new name differs from the current
slug; when neither name nor slug is supplied, a successful update leaves
name and slug unchanged. -/
theorem update_category_slug_amended :
    (∀ (cats : List CategoryRow) (catId n : String) (cat cat2 : CategoryRow)
       (cats2 : List CategoryRow),
      cats.find? (fun c => c.id == catId) = some cat → n ≠ "" →
      update_category cats catId (CategoryUpdate.mk (some (some n)) none) =
        .ok (cat2, cats2) →
      cat2.slug = _slugify n ∧ cat2.name = n) ∧
    (∀ (cats : List CategoryRow) (catId n : String) (cat : CategoryRow),
      cats.find? (fun c => c.id == catId) = some cat → n ≠ "" →
      (∀ c ∈ cats, c.id ≠ cat.id → c.slug ≠ _slugify n) →
      (update_category cats catId
        (CategoryUpdate.mk (some (some n)) none)).isOk = true) ∧
    (∀ (cats : List CategoryRow) (catId : String) (cat cat2 : CategoryRow)
       (cats2 : List CategoryRow),
      cats.find? (fun c => c.id == catId) = some cat →
      update_category cats catId (CategoryUpdate.mk none none) = .ok (cat2, cats2) →
      cat2.slug = cat.slug ∧ cat2.name = cat.name) := by
  refine ⟨?_, ?_, ?_⟩
  · intro cats catId n cat cat2 cats2 hf hn h
    unfold update_category at h
    rw [hf] at h
    simp only [hn, if_false] at h
    split_ifs at h with h1
    simp only [Except.ok.injEq, Prod.mk.injEq] at h
    obtain ⟨hcat2, -⟩ := h
    subst hcat2
    exact ⟨rfl, rfl⟩
  · intro cats catId n cat hf hn hfree
    unfold update_category
    rw [hf]
    simp only [hn, if_false]
    have hcond : (decide (_slugify n ≠ cat.slug) &&
        cats.any fun c => c.slug == _slugify n && c.id != cat.id) = false := by
      by_cases hsame : _slugify n = cat.slug
      · simp [hsame]
      · rw [Bool.and_eq_false_iff]
        right
        rw [List.any_eq_false]
        intro c hc
        simp only [Bool.and_eq_true, beq_iff_eq, bne_iff_ne, not_and, ne_eq]
        intro hslug hid
        exact hfree c hc hid hslug
    rw [hcond]
    simp only [Bool.false_eq_true, if_false]
    rfl
  · intro cats catId cat cat2 cats2 hf h
    unfold update_category at h
    rw [hf] at h
    simp only at h
    split_ifs at h with h1
    simp only [Except.ok.injEq, Prod.mk.injEq] at h
    obtain ⟨hcat2, -⟩ := h
    subst hcat2
    exact ⟨rfl, rfl⟩

/-- Witness for the amended C10 at a concrete rename. -/
theorem update_category_slug_amended_witness :
    (CategoryRow.mk "c1" "New Name" "new-name").slug = _slugify "New Name" ∧
    (CategoryRow.mk "c1" "New Name" "new-name").name = "New Name" :=
  update_category_slug_amended.1 [CategoryRow.mk "c1" "Old" "old"] "c1" "New Name"
    (CategoryRow.mk "c1" "Old" "old") (CategoryRow.mk "c1" "New Name" "new-name")
    [CategoryRow.mk "c1" "New Name" "new-name"] rfl (by decide) rfl
